import Mathlib

/-!
Verification of the GPU Clock Safe mode controller (src/gpu_clock_safe.py).

The development shallowly embeds the mode-control core of the program:
the external command boundary (`run_cmd`, lines 165-174, here `runCmd`),
clock setting (`set_gpu_clock`, 181-189), default restoration
(`restore_gpu_defaults`, 192-196), the three mode-switch operations
(`set_mode_normal` 245-252, `set_mode_balanced` 255-262, `set_mode_boost`
265-285), one iteration of the auto-temperature arbitration loop
(`auto_temp_loop`, 291-324), and the shutdown control flow
(`stop_app` 664-683, `main` 686-742).

External effects (subprocess outcomes, the temperature sensor, the power
source) are supplied by an `Env` oracle; hardware commands issued by an
operation are collected in an explicit trace.
-/

/-- The three named clock modes. The Python `current_mode` global starts as
`None` ("Unknown"), modelled as `Option Mode`. -/
inductive Mode
  | Normal
  | Balanced
  | Boost
  deriving DecidableEq, Repr

/-- The external commands the controller issues, abstracting the
`nvidia-smi` invocations: `-lgc mhz,mhz` (lock clock), `-rgc`
(restore clock), `-rac` (restore auto/power clocks). -/
inductive Cmd
  | lgc (mhz : Int)
  | rgc
  | rac
  deriving DecidableEq, Repr

/-- The outcome of executing an external command, matching the cases
`run_cmd` (src lines 165-174) distinguishes: normal output,
`subprocess.CalledProcessError`, `FileNotFoundError`. -/
inductive CmdOutcome
  | output (s : String)
  | calledProcessError (out : String)
  | fileNotFoundError
  deriving DecidableEq, Repr

/-- Oracle for the external world during one operation: how each command
would behave, the temperature reading `get_gpu_temp` would return
(lines 199-217, `none` when unreadable), and `is_on_ac_power`
(lines 232-239). -/
structure Env where
  exec : Cmd → CmdOutcome
  temp : Option Int
  ac : Bool

/-- The settings fields the mode controller reads (src lines 74-87). -/
structure Settings where
  stable_mhz : Int
  boost_mhz : Int
  battery_mhz : Int
  temp_threshold_boost : Int
  temp_threshold_balanced : Int
  temp_threshold_force_normal : Int
  auto_temp_mode : Bool
  deriving DecidableEq, Repr

/-- Controller state: the `current_mode` global (line 95), `None` at start. -/
structure St where
  current_mode : Option Mode
  deriving DecidableEq, Repr

/-- Embeds `run_cmd` (src lines 165-174): both exception cases are caught
and converted to `None`; the issued command is recorded in the trace. -/
def runCmd (env : Env) (c : Cmd) : Option String × List Cmd :=
  match env.exec c with
  | CmdOutcome.output s => (some s, [c])
  | CmdOutcome.calledProcessError _ => (none, [c])
  | CmdOutcome.fileNotFoundError => (none, [c])

/-- Embeds `set_gpu_clock` (src lines 181-189): issues `-lgc mhz,mhz` and
reports success iff the command produced output. -/
def set_gpu_clock (env : Env) (core_mhz : Int) : Bool × List Cmd :=
  let r := runCmd env (Cmd.lgc core_mhz)
  (r.1.isSome, r.2)

/-- Result of a mode-switch operation: the boolean the Python function
returns, the controller state after it, and the clock commands issued. -/
structure Res where
  ok : Bool
  st : St
  cmds : List Cmd
  deriving DecidableEq, Repr

/-- Embeds `set_mode_normal` (src lines 245-252): apply the battery-safe
clock; write `current_mode` only on success. -/
def set_mode_normal (env : Env) (s : Settings) (st : St) : Res :=
  let r := set_gpu_clock env s.battery_mhz
  if r.1 = true then ⟨true, { st with current_mode := some Mode.Normal }, r.2⟩
  else ⟨false, st, r.2⟩

/-- Embeds `set_mode_balanced` (src lines 255-262). -/
def set_mode_balanced (env : Env) (s : Settings) (st : St) : Res :=
  let r := set_gpu_clock env s.stable_mhz
  if r.1 = true then ⟨true, { st with current_mode := some Mode.Balanced }, r.2⟩
  else ⟨false, st, r.2⟩

/-- The tail of `set_mode_boost` after its gates (src lines 280-285):
apply the boost clock, write `current_mode` on success. -/
def boost_apply (env : Env) (s : Settings) (st : St) : Res :=
  let r := set_gpu_clock env s.boost_mhz
  if r.1 = true then ⟨true, { st with current_mode := some Mode.Boost }, r.2⟩
  else ⟨false, st, r.2⟩

/-- Embeds `set_mode_boost` (src lines 265-285). Gate 1 (line 268):
reject when not forced and on battery. Gate 2 (lines 273-279): reject when
a temperature reading exists and is `>=` the boost threshold — note the
source applies this gate whether or not `force` is set. -/
def set_mode_boost (env : Env) (s : Settings) (st : St) (force : Bool) : Res :=
  if force = false ∧ env.ac = false then ⟨false, st, []⟩
  else
    match env.temp with
    | some temp =>
      if s.temp_threshold_boost ≤ temp then ⟨false, st, []⟩
      else boost_apply env s st
    | none => boost_apply env s st

/-- Embeds one iteration of the body of `auto_temp_loop`
(src lines 295-319): when auto mode is enabled and the temperature is
readable, pick a target by the priority chain and invoke the matching
switch operation unless the current mode already equals the target. -/
def auto_temp_poll (env : Env) (s : Settings) (st : St) : St × List Cmd :=
  if s.auto_temp_mode = true then
    match env.temp with
    | none => (st, [])
    | some temp =>
      if s.temp_threshold_force_normal ≤ temp then
        if st.current_mode ≠ some Mode.Normal then
          let r := set_mode_normal env s st
          (r.st, r.cmds)
        else (st, [])
      else if s.temp_threshold_balanced ≤ temp then
        if st.current_mode ≠ some Mode.Balanced then
          let r := set_mode_balanced env s st
          (r.st, r.cmds)
        else (st, [])
      else
        if env.ac = true ∧ temp < s.temp_threshold_boost then
          if st.current_mode ≠ some Mode.Boost then
            let r := set_mode_boost env s st true
            (r.st, r.cmds)
          else (st, [])
        else
          if st.current_mode ≠ some Mode.Balanced then
            let r := set_mode_balanced env s st
            (r.st, r.cmds)
          else (st, [])
  else (st, [])

/-- Iterated polls of the arbitration loop, one `Env` snapshot per poll. -/
def auto_temp_polls (envs : List Env) (s : Settings) (st : St) : St × List Cmd :=
  match envs with
  | [] => (st, [])
  | e :: rest =>
    let r := auto_temp_poll e s st
    let r2 := auto_temp_polls rest s r.1
    (r2.1, r.2 ++ r2.2)

/-- Embeds `restore_gpu_defaults` (src lines 192-196): two unconditional
`runCmd` calls, `-rgc` then `-rac`; `current_mode` is not assigned.
Returns both command results and the issued trace. -/
def restore_gpu_defaults (env : Env) : (Option String × Option String) × List Cmd :=
  let r1 := runCmd env Cmd.rgc
  let r2 := runCmd env Cmd.rac
  ((r1.1, r2.1), r1.2 ++ r2.2)

/-- Two back-to-back invocations of `restore_gpu_defaults` against the
same environment. -/
def restore_twice (env : Env) :
    ((Option String × Option String) × (Option String × Option String)) × List Cmd :=
  let a := restore_gpu_defaults env
  let b := restore_gpu_defaults env
  ((a.1, b.1), a.2 ++ b.2)

/-- The configured clock for each mode: Normal uses `battery_mhz`
(line 247), Balanced uses `stable_mhz` (line 257), Boost uses `boost_mhz`
(line 280). -/
def clock_for (s : Settings) (m : Mode) : Int :=
  match m with
  | Mode.Normal => s.battery_mhz
  | Mode.Balanced => s.stable_mhz
  | Mode.Boost => s.boost_mhz

/-- "The poll selects target `m`": if the current mode already equals `m`
the poll is a no-op (line 307/310/315/318 guards); otherwise it issues
exactly the clock-lock command for `m` and moves to `m` iff that command
succeeds. -/
def poll_selects (env : Env) (s : Settings) (st : St) (m : Mode) : Prop :=
  (st.current_mode = some m → auto_temp_poll env s st = (st, [])) ∧
  (st.current_mode ≠ some m →
    (auto_temp_poll env s st).2 = [Cmd.lgc (clock_for s m)] ∧
    (auto_temp_poll env s st).1.current_mode =
      (if ((runCmd env (Cmd.lgc (clock_for s m))).1).isSome = true then some m
       else st.current_mode))

instance (env : Env) (s : Settings) (st : St) (m : Mode) :
    Decidable (poll_selects env s st m) := by
  unfold poll_selects
  infer_instance

/-- Process-level state for the shutdown model: the `stop_event` flag
(line 93) and how many times a hardware restore has been attempted. -/
structure AppSt where
  stop_event_set : Bool
  restore_attempts : Nat
  deriving DecidableEq, Repr

/-- Embeds `stop_app` (src lines 664-683): sets `stop_event` and attempts
`restore_gpu_defaults` once (the surrounding `try` swallows its errors),
then requests the Tk main loop to quit. -/
def stop_app (a : AppSt) : AppSt :=
  { a with stop_event_set := true, restore_attempts := a.restore_attempts + 1 }

/-- The three ways shutdown is initiated: the tray "Exit & Restore" item
(`on_quit`, lines 570-572), the window menu "Exit & Restore Clocks"
(`exit_and_restore`, lines 618-620), or the main loop terminating on its
own (e.g. `KeyboardInterrupt`, lines 737-740). -/
inductive ShutdownPath
  | trayQuit
  | windowExit
  | mainLoopEnd
  deriving DecidableEq, Repr

/-- Embeds the shutdown control flow of `main` (src lines 736-742).
Tray quit and window exit each call `stop_app` in their handler
(lines 572, 620); `stop_app` calls `root.quit()` (line 680), which makes
`root.mainloop()` (line 738) return, after which `main`'s `finally`
(lines 741-742) calls `stop_app` again. When the main loop ends on its
own, only the `finally` call runs. -/
def shutdown (p : ShutdownPath) (a : AppSt) : AppSt :=
  match p with
  | ShutdownPath.trayQuit => stop_app (stop_app a)
  | ShutdownPath.windowExit => stop_app (stop_app a)
  | ShutdownPath.mainLoopEnd => stop_app a

/-- The operations that can touch controller state: the three exposed
switch operations, `restore_gpu_defaults`, and one arbitration-loop poll.
`restore_gpu_defaults` (lines 192-196) contains no assignment to
`current_mode`, so its state transition is the identity. -/
inductive Op
  | switchNormal
  | switchBalanced
  | switchBoost (force : Bool)
  | restoreDefaults
  | autoPoll
  deriving DecidableEq, Repr

/-- State transition of each operation. -/
def apply_op (env : Env) (s : Settings) (st : St) (op : Op) : St :=
  match op with
  | Op.switchNormal => (set_mode_normal env s st).st
  | Op.switchBalanced => (set_mode_balanced env s st).st
  | Op.switchBoost force => (set_mode_boost env s st force).st
  | Op.restoreDefaults => st
  | Op.autoPoll => (auto_temp_poll env s st).1

/-- The default settings of the source (src lines 74-87), with auto mode
enabled as the arbitration loop requires. -/
def sDefault : Settings :=
  { stable_mhz := 1200, boost_mhz := 1600, battery_mhz := 900
    temp_threshold_boost := 70, temp_threshold_balanced := 80
    temp_threshold_force_normal := 85, auto_temp_mode := true }

/-- An environment where every external command succeeds, parameterised by
sensor values. -/
def envOk (t : Option Int) (ac : Bool) : Env :=
  { exec := fun _ => CmdOutcome.output "", temp := t, ac := ac }

/-- An environment where every external command fails with a non-zero
exit, parameterised by sensor values. -/
def envFail (t : Option Int) (ac : Bool) : Env :=
  { exec := fun _ => CmdOutcome.calledProcessError "err", temp := t, ac := ac }

/-- Claim C5: with `force = false` and on battery, `set_mode_boost`
rejects at Gate 1 regardless of the temperature: it returns failure,
issues no clock command, and leaves the stored mode unchanged. -/
theorem c5_battery_always_rejects (env : Env) (s : Settings) (st : St)
    (hac : env.ac = false) :
    set_mode_boost env s st false = ⟨false, st, []⟩ := by
  unfold set_mode_boost
  simp [hac]

/-- Witness for C5 at a concrete battery environment with a readable,
cool temperature. -/
theorem c5_battery_always_rejects_witness :
    (envOk (some 30) false).ac = false ∧
    set_mode_boost (envOk (some 30) false) sDefault ⟨some Mode.Balanced⟩ false =
      ⟨false, ⟨some Mode.Balanced⟩, []⟩ :=
  ⟨rfl, c5_battery_always_rejects (envOk (some 30) false) sDefault ⟨some Mode.Balanced⟩ rfl⟩

/-- Claim C6: with `force = false`, on AC, and a temperature reading
exactly equal to the boost ceiling, `set_mode_boost` rejects (the gate is
the inclusive comparison `temp >= thr`, line 276) and issues no clock
command. -/
theorem c6_boundary_inclusive (env : Env) (s : Settings) (st : St)
    (hac : env.ac = true) (ht : env.temp = some s.temp_threshold_boost) :
    set_mode_boost env s st false = ⟨false, st, []⟩ := by
  unfold set_mode_boost
  simp [hac, ht]

/-- Witness for C6: default thresholds, AC power, temperature exactly 70. -/
theorem c6_boundary_inclusive_witness :
    (envOk (some 70) true).ac = true ∧
    (envOk (some 70) true).temp = some sDefault.temp_threshold_boost ∧
    set_mode_boost (envOk (some 70) true) sDefault ⟨some Mode.Normal⟩ false =
      ⟨false, ⟨some Mode.Normal⟩, []⟩ :=
  ⟨rfl, rfl, c6_boundary_inclusive (envOk (some 70) true) sDefault ⟨some Mode.Normal⟩ rfl rfl⟩

/-- Branch lemma: temperature at or above the force-Normal ceiling makes
the poll select Normal (src lines 306-308). -/
theorem poll_selects_normal (env : Env) (s : Settings) (st : St) (t : Int)
    (hauto : s.auto_temp_mode = true) (ht : env.temp = some t)
    (h : s.temp_threshold_force_normal ≤ t) :
    poll_selects env s st Mode.Normal := by
  constructor
  · intro hcur
    unfold auto_temp_poll
    simp [hauto, ht, h, hcur]
  · intro hcur
    unfold auto_temp_poll
    simp only [hauto, ht, if_true]
    rw [if_pos h, if_pos hcur]
    simp only [set_mode_normal, set_gpu_clock, clock_for]
    cases hx : env.exec (Cmd.lgc s.battery_mhz) <;>
      simp [runCmd, hx]

/-- Branch lemma: temperature below the force ceiling but at or above the
balanced ceiling makes the poll select Balanced (src lines 309-311). -/
theorem poll_selects_balanced_hot (env : Env) (s : Settings) (st : St) (t : Int)
    (hauto : s.auto_temp_mode = true) (ht : env.temp = some t)
    (h1 : t < s.temp_threshold_force_normal) (h2 : s.temp_threshold_balanced ≤ t) :
    poll_selects env s st Mode.Balanced := by
  constructor
  · intro hcur
    unfold auto_temp_poll
    simp [hauto, ht, not_le.mpr h1, h2, hcur]
  · intro hcur
    unfold auto_temp_poll
    simp only [hauto, ht, if_true]
    rw [if_neg (not_le.mpr h1), if_pos h2, if_pos hcur]
    simp only [set_mode_balanced, set_gpu_clock, clock_for]
    cases hx : env.exec (Cmd.lgc s.stable_mhz) <;>
      simp [runCmd, hx]

/-- Branch lemma: temperature below the balanced ceiling, on AC, and below
the boost ceiling makes the poll select Boost (src lines 313-316); the
forced `set_mode_boost` call re-passes the temperature gate because the
same reading is below the threshold. -/
theorem poll_selects_boost (env : Env) (s : Settings) (st : St) (t : Int)
    (hauto : s.auto_temp_mode = true) (ht : env.temp = some t)
    (h1 : t < s.temp_threshold_force_normal) (h2 : t < s.temp_threshold_balanced)
    (hac : env.ac = true) (h3 : t < s.temp_threshold_boost) :
    poll_selects env s st Mode.Boost := by
  constructor
  · intro hcur
    unfold auto_temp_poll
    simp [hauto, ht, not_le.mpr h1, not_le.mpr h2, hac, h3, hcur]
  · intro hcur
    unfold auto_temp_poll
    simp only [hauto, ht, if_true]
    rw [if_neg (not_le.mpr h1), if_neg (not_le.mpr h2), if_pos ⟨hac, h3⟩, if_pos hcur]
    simp only [set_mode_boost, ht]
    rw [if_neg (by simp)]
    simp only [if_neg (not_le.mpr h3)]
    simp only [boost_apply, set_gpu_clock, clock_for]
    cases hx : env.exec (Cmd.lgc s.boost_mhz) <;>
      simp [runCmd, hx]

/-- Branch lemma: temperature below the balanced ceiling but the Boost
condition (AC and below boost ceiling) failing makes the poll select
Balanced (src lines 317-319). -/
theorem poll_selects_balanced_cool (env : Env) (s : Settings) (st : St) (t : Int)
    (hauto : s.auto_temp_mode = true) (ht : env.temp = some t)
    (h1 : t < s.temp_threshold_force_normal) (h2 : t < s.temp_threshold_balanced)
    (h3 : ¬(env.ac = true ∧ t < s.temp_threshold_boost)) :
    poll_selects env s st Mode.Balanced := by
  constructor
  · intro hcur
    unfold auto_temp_poll
    simp [hauto, ht, not_le.mpr h1, not_le.mpr h2, h3, hcur]
  · intro hcur
    unfold auto_temp_poll
    simp only [hauto, ht, if_true]
    rw [if_neg (not_le.mpr h1), if_neg (not_le.mpr h2), if_neg h3, if_pos hcur]
    simp only [set_mode_balanced, set_gpu_clock, clock_for]
    cases hx : env.exec (Cmd.lgc s.stable_mhz) <;>
      simp [runCmd, hx]

/-- Order-violating settings for claim C3: the boost ceiling (90) is above
the balanced ceiling (80). -/
def sBad : Settings :=
  { stable_mhz := 1200, boost_mhz := 1600, battery_mhz := 900
    temp_threshold_boost := 90, temp_threshold_balanced := 80
    temp_threshold_force_normal := 85, auto_temp_mode := true }

/-- Claim C1: for every threshold triple with
`boostCeiling < balancedCeiling < forceNormalCeiling` and every poll with a
readable temperature, the target mode follows the spec's priority chain:
Normal when `temp >= forceNormalCeiling`; else Balanced when
`temp >= balancedCeiling`; else Boost when on AC and
`temp < boostCeiling`; else Balanced. The four concrete scenarios with
thresholds 70/80/85 (temp 90 → Normal, 82 → Balanced, 65 on AC → Boost,
65 on battery → Balanced) are included as instances. -/
theorem c1_loop_priority (env : Env) (s : Settings) (st : St) (t : Int)
    (hord : s.temp_threshold_boost < s.temp_threshold_balanced ∧
      s.temp_threshold_balanced < s.temp_threshold_force_normal)
    (hauto : s.auto_temp_mode = true) (ht : env.temp = some t) :
    ((s.temp_threshold_force_normal ≤ t → poll_selects env s st Mode.Normal) ∧
     (t < s.temp_threshold_force_normal → s.temp_threshold_balanced ≤ t →
       poll_selects env s st Mode.Balanced) ∧
     (t < s.temp_threshold_balanced → env.ac = true → t < s.temp_threshold_boost →
       poll_selects env s st Mode.Boost) ∧
     (t < s.temp_threshold_balanced → ¬(env.ac = true ∧ t < s.temp_threshold_boost) →
       poll_selects env s st Mode.Balanced)) ∧
    poll_selects (envOk (some 90) true) sDefault ⟨none⟩ Mode.Normal ∧
    poll_selects (envOk (some 82) true) sDefault ⟨none⟩ Mode.Balanced ∧
    poll_selects (envOk (some 65) true) sDefault ⟨none⟩ Mode.Boost ∧
    poll_selects (envOk (some 65) false) sDefault ⟨none⟩ Mode.Balanced := by
  refine ⟨⟨?_, ?_, ?_, ?_⟩, by decide, by decide, by decide, by decide⟩
  · intro h
    exact poll_selects_normal env s st t hauto ht h
  · intro h1 h2
    exact poll_selects_balanced_hot env s st t hauto ht h1 h2
  · intro h1 hac h2
    exact poll_selects_boost env s st t hauto ht (by omega) h1 hac h2
  · intro h1 h2
    exact poll_selects_balanced_cool env s st t hauto ht (by omega) h1 h2

/-- Witness for C1: default thresholds 70/80/85, temperature 90, current
mode Balanced — the poll selects Normal. -/
theorem c1_loop_priority_witness :
    (sDefault.temp_threshold_boost < sDefault.temp_threshold_balanced ∧
      sDefault.temp_threshold_balanced < sDefault.temp_threshold_force_normal) ∧
    sDefault.auto_temp_mode = true ∧
    (envOk (some 90) true).temp = some 90 ∧
    poll_selects (envOk (some 90) true) sDefault ⟨some Mode.Balanced⟩ Mode.Normal :=
  ⟨⟨by decide, by decide⟩, rfl, rfl,
    (c1_loop_priority (envOk (some 90) true) sDefault ⟨some Mode.Balanced⟩ 90
      ⟨by decide, by decide⟩ rfl rfl).1.1 (by decide)⟩

/-- Claim C2 counterexample: with `force = true`, a readable temperature
of 90 °C (at or above the 70 °C boost ceiling), `set_mode_boost` still
rejects — it returns failure, issues no clock command, and leaves the mode
unchanged — contradicting "force=true bypasses both the AC-power gate and
the temperature gate and applies the boost clock". -/
theorem c2_counterexample :
    (envOk (some 90) true).temp = some 90 ∧
    set_mode_boost (envOk (some 90) true) sDefault ⟨none⟩ true =
      ⟨false, ⟨none⟩, []⟩ := by decide

/-- Claim C2 as amended: `force = true` bypasses only the AC-power gate
(the statement holds for every power-source state, including battery);
the temperature gate still applies: when a reading exists and is at or
above the boost ceiling the call rejects with no clock command and
unchanged state, and otherwise (reading below the ceiling, or unreadable)
the boost clock is applied with the usual success/failure semantics. -/
theorem c2_force_bypasses_ac_only (env : Env) (s : Settings) (st : St) :
    (∀ t, env.temp = some t → s.temp_threshold_boost ≤ t →
      set_mode_boost env s st true = ⟨false, st, []⟩) ∧
    ((∀ t, env.temp = some t → t < s.temp_threshold_boost) →
      set_mode_boost env s st true =
        (if ((runCmd env (Cmd.lgc s.boost_mhz)).1).isSome = true
         then ⟨true, { st with current_mode := some Mode.Boost }, [Cmd.lgc s.boost_mhz]⟩
         else ⟨false, st, [Cmd.lgc s.boost_mhz]⟩)) := by
  constructor
  · intro t ht hge
    unfold set_mode_boost
    simp [ht, hge]
  · intro h
    unfold set_mode_boost
    cases henv : env.temp with
    | none =>
      simp only [boost_apply, set_gpu_clock]
      cases hx : env.exec (Cmd.lgc s.boost_mhz) <;> simp [runCmd, hx]
    | some t =>
      rw [if_neg (by simp)]
      simp only [if_neg (not_le.mpr (h t henv))]
      simp only [boost_apply, set_gpu_clock]
      cases hx : env.exec (Cmd.lgc s.boost_mhz) <;> simp [runCmd, hx]

/-- Witness for the amended C2: on battery with `force = true` the AC gate
is bypassed, yet a 90 °C reading still rejects the call. -/
theorem c2_force_bypasses_ac_only_witness :
    (envOk (some 90) false).temp = some 90 ∧
    sDefault.temp_threshold_boost ≤ (90 : Int) ∧
    set_mode_boost (envOk (some 90) false) sDefault ⟨some Mode.Normal⟩ true =
      ⟨false, ⟨some Mode.Normal⟩, []⟩ :=
  ⟨rfl, by decide,
    (c2_force_bypasses_ac_only (envOk (some 90) false) sDefault
      ⟨some Mode.Normal⟩).1 90 rfl (by decide)⟩

/-- Claim C3 counterexample: with the order-violating thresholds
{boost 90, balanced 80, force 85}, a 70 °C reading on AC makes the poll
apply Boost — the controller acts on the violating set instead of falling
back to Normal. -/
theorem c3_counterexample :
    ¬(sBad.temp_threshold_boost < sBad.temp_threshold_balanced ∧
      sBad.temp_threshold_balanced < sBad.temp_threshold_force_normal) ∧
    (auto_temp_poll (envOk (some 70) true) sBad ⟨none⟩).1.current_mode = some Mode.Boost ∧
    some Mode.Boost ≠ (some Mode.Normal : Option Mode) := by decide

/-- Claim C3 as amended: the controller performs no ordering validation.
When the thresholds violate `boost < balanced < force`, every poll with a
readable temperature still applies the usual priority chain — Normal when
`temp >= force`, else Balanced when `temp >= balanced`, else Boost when on
AC and `temp < boost`, else Balanced — which can select Boost or Balanced;
there is no fall-back that forces Normal. The poll is a total function, so
it does not crash. -/
theorem c3_no_ordering_validation (env : Env) (s : Settings) (st : St) (t : Int)
    (hviol : ¬(s.temp_threshold_boost < s.temp_threshold_balanced ∧
      s.temp_threshold_balanced < s.temp_threshold_force_normal))
    (hauto : s.auto_temp_mode = true) (ht : env.temp = some t) :
    (s.temp_threshold_force_normal ≤ t → poll_selects env s st Mode.Normal) ∧
    (t < s.temp_threshold_force_normal → s.temp_threshold_balanced ≤ t →
      poll_selects env s st Mode.Balanced) ∧
    (t < s.temp_threshold_force_normal → t < s.temp_threshold_balanced →
      env.ac = true → t < s.temp_threshold_boost → poll_selects env s st Mode.Boost) ∧
    (t < s.temp_threshold_force_normal → t < s.temp_threshold_balanced →
      ¬(env.ac = true ∧ t < s.temp_threshold_boost) →
      poll_selects env s st Mode.Balanced) := by
  refine ⟨?_, ?_, ?_, ?_⟩
  · intro h
    exact poll_selects_normal env s st t hauto ht h
  · intro h1 h2
    exact poll_selects_balanced_hot env s st t hauto ht h1 h2
  · intro h1 h2 hac h3
    exact poll_selects_boost env s st t hauto ht h1 h2 hac h3
  · intro h1 h2 h3
    exact poll_selects_balanced_cool env s st t hauto ht h1 h2 h3

/-- Witness for the amended C3: at the violating thresholds of the
counterexample, temperature 70 on AC, the chain selects Boost. -/
theorem c3_no_ordering_validation_witness :
    ¬(sBad.temp_threshold_boost < sBad.temp_threshold_balanced ∧
      sBad.temp_threshold_balanced < sBad.temp_threshold_force_normal) ∧
    poll_selects (envOk (some 70) true) sBad ⟨some Mode.Balanced⟩ Mode.Boost :=
  ⟨by decide,
    ((c3_no_ordering_validation (envOk (some 70) true) sBad ⟨some Mode.Balanced⟩ 70
      (by decide) rfl rfl).2.2.1) (by decide) (by decide) rfl (by decide)⟩

/-- Two controller states with the same stored mode are equal. -/
theorem St.ext_mode (a b : St) (h : a.current_mode = b.current_mode) : a = b := by
  cases a
  cases b
  simp_all

/-- Claim C4: whenever the clock-set command fails, each of the three
switch operations returns failure and leaves the stored mode exactly as it
was (the `current_mode` assignment sits under the success check,
src lines 249-250, 259-260, 282-283). -/
theorem c4_failure_preserves_mode (env : Env) (s : Settings) (st : St) (force : Bool)
    (h1 : (runCmd env (Cmd.lgc s.battery_mhz)).1 = none)
    (h2 : (runCmd env (Cmd.lgc s.stable_mhz)).1 = none)
    (h3 : (runCmd env (Cmd.lgc s.boost_mhz)).1 = none) :
    ((set_mode_normal env s st).st = st ∧ (set_mode_normal env s st).ok = false) ∧
    ((set_mode_balanced env s st).st = st ∧ (set_mode_balanced env s st).ok = false) ∧
    ((set_mode_boost env s st force).st = st ∧ (set_mode_boost env s st force).ok = false) := by
  have hn : set_mode_normal env s st = ⟨false, st, (runCmd env (Cmd.lgc s.battery_mhz)).2⟩ := by
    unfold set_mode_normal set_gpu_clock
    simp [h1]
  have hb : set_mode_balanced env s st = ⟨false, st, (runCmd env (Cmd.lgc s.stable_mhz)).2⟩ := by
    unfold set_mode_balanced set_gpu_clock
    simp [h2]
  have ha : boost_apply env s st = ⟨false, st, (runCmd env (Cmd.lgc s.boost_mhz)).2⟩ := by
    unfold boost_apply set_gpu_clock
    simp [h3]
  refine ⟨⟨by rw [hn], by rw [hn]⟩, ⟨by rw [hb], by rw [hb]⟩, ?_⟩
  unfold set_mode_boost
  by_cases hg : force = false ∧ env.ac = false
  · rw [if_pos hg]
    exact ⟨rfl, rfl⟩
  · rw [if_neg hg]
    cases henv : env.temp with
    | none =>
      rw [ha]
      exact ⟨rfl, rfl⟩
    | some t =>
      by_cases hth : s.temp_threshold_boost ≤ t
      · simp [hth]
      · simp [hth, ha]

/-- Witness for C4: an environment whose commands all exit non-zero,
prior mode Boost; all three operations fail and preserve it. -/
theorem c4_failure_preserves_mode_witness :
    (runCmd (envFail (some 30) true) (Cmd.lgc sDefault.battery_mhz)).1 = none ∧
    (runCmd (envFail (some 30) true) (Cmd.lgc sDefault.stable_mhz)).1 = none ∧
    (runCmd (envFail (some 30) true) (Cmd.lgc sDefault.boost_mhz)).1 = none ∧
    (((set_mode_normal (envFail (some 30) true) sDefault ⟨some Mode.Boost⟩).st =
        ⟨some Mode.Boost⟩ ∧
      (set_mode_normal (envFail (some 30) true) sDefault ⟨some Mode.Boost⟩).ok = false) ∧
     ((set_mode_balanced (envFail (some 30) true) sDefault ⟨some Mode.Boost⟩).st =
        ⟨some Mode.Boost⟩ ∧
      (set_mode_balanced (envFail (some 30) true) sDefault ⟨some Mode.Boost⟩).ok = false) ∧
     ((set_mode_boost (envFail (some 30) true) sDefault ⟨some Mode.Boost⟩ false).st =
        ⟨some Mode.Boost⟩ ∧
      (set_mode_boost (envFail (some 30) true) sDefault ⟨some Mode.Boost⟩ false).ok = false)) :=
  ⟨rfl, rfl, rfl,
    c4_failure_preserves_mode (envFail (some 30) true) sDefault ⟨some Mode.Boost⟩ false
      rfl rfl rfl⟩

/-- A poll with an unreadable temperature changes nothing and issues no
command (src lines 297-300). -/
theorem poll_skip_unreadable (env : Env) (s : Settings) (st : St) (h : env.temp = none) :
    auto_temp_poll env s st = (st, []) := by
  unfold auto_temp_poll
  cases hauto : s.auto_temp_mode <;> simp [h, hauto]

/-- Claim C7: over any sequence of consecutive polls in which the
temperature is unreadable, the arbitration loop leaves the stored mode
untouched and issues no hardware command. -/
theorem c7_unreadable_polls_no_change (envs : List Env) (s : Settings) (st : St)
    (h : ∀ e ∈ envs, e.temp = none) :
    auto_temp_polls envs s st = (st, []) := by
  induction envs generalizing st with
  | nil => rfl
  | cons e rest ih =>
    have he : e.temp = none := h e (List.mem_cons_self e rest)
    have hrest : ∀ x ∈ rest, x.temp = none := fun x hx => h x (List.mem_cons_of_mem e hx)
    simp only [auto_temp_polls]
    rw [poll_skip_unreadable e s st he]
    simp only []
    exact ih st hrest

/-- Witness for C7: three consecutive unreadable polls preserve a Boost
mode and issue nothing. -/
theorem c7_unreadable_polls_no_change_witness :
    (∀ e ∈ [envOk none true, envOk none true, envOk none false], e.temp = none) ∧
    auto_temp_polls [envOk none true, envOk none true, envOk none false] sDefault
      ⟨some Mode.Boost⟩ = (⟨some Mode.Boost⟩, []) := by
  have h : ∀ e ∈ [envOk none true, envOk none true, envOk none false], e.temp = none := by
    intro e he
    simp only [List.mem_cons, List.not_mem_nil, or_false] at he
    rcases he with h | h | h <;> subst h <;> rfl
  exact ⟨h, c7_unreadable_polls_no_change _ sDefault ⟨some Mode.Boost⟩ h⟩

/-- Claim C8: `restore_gpu_defaults` always issues both restore commands
even when the first fails (each `runCmd` converts failure to `None`
instead of raising, src lines 165-174), the second command's result does
not depend on the first, and a second back-to-back call behaves exactly
like the first — no escalation. -/
theorem c8_restore_both_attempted (env : Env)
    (hfail : (runCmd env Cmd.rgc).1 = none) :
    (restore_gpu_defaults env).2 = [Cmd.rgc, Cmd.rac] ∧
    (restore_gpu_defaults env).1.2 = (runCmd env Cmd.rac).1 ∧
    (restore_twice env).2 = [Cmd.rgc, Cmd.rac, Cmd.rgc, Cmd.rac] ∧
    (restore_twice env).1.1 = (restore_twice env).1.2 := by
  have htr : ∀ c, (runCmd env c).2 = [c] := by
    intro c
    unfold runCmd
    cases env.exec c <;> rfl
  refine ⟨?_, rfl, ?_, rfl⟩
  · show (runCmd env Cmd.rgc).2 ++ (runCmd env Cmd.rac).2 = [Cmd.rgc, Cmd.rac]
    rw [htr, htr]
    rfl
  · show ((runCmd env Cmd.rgc).2 ++ (runCmd env Cmd.rac).2) ++
      ((runCmd env Cmd.rgc).2 ++ (runCmd env Cmd.rac).2) = [Cmd.rgc, Cmd.rac, Cmd.rgc, Cmd.rac]
    rw [htr, htr]
    rfl

/-- Witness for C8: every command exits non-zero; the `-rgc` failure does
not stop `-rac` from being issued, twice in a row. -/
theorem c8_restore_both_attempted_witness :
    (runCmd (envFail none true) Cmd.rgc).1 = none ∧
    ((restore_gpu_defaults (envFail none true)).2 = [Cmd.rgc, Cmd.rac] ∧
     (restore_gpu_defaults (envFail none true)).1.2 =
       (runCmd (envFail none true) Cmd.rac).1 ∧
     (restore_twice (envFail none true)).2 = [Cmd.rgc, Cmd.rac, Cmd.rgc, Cmd.rac] ∧
     (restore_twice (envFail none true)).1.1 = (restore_twice (envFail none true)).1.2) :=
  ⟨rfl, c8_restore_both_attempted (envFail none true) rfl⟩

/-- Claim C9 counterexample: shutdown initiated from the tray "Exit &
Restore" item attempts the hardware restore twice, not exactly once: the
tray handler's `stop_app` restores and calls `root.quit()`, and `main`'s
`finally` then calls `stop_app` — and thus `restore_gpu_defaults` — a
second time. -/
theorem c9_counterexample :
    (shutdown ShutdownPath.trayQuit ⟨false, 0⟩).restore_attempts = 2 ∧
    (2 : Nat) ≠ 1 := by decide

/-- Claim C9 as amended: once shutdown is initiated, the stop signal is
set and the hardware restore is attempted at least once and at most twice
before exit: exactly once when the main loop terminates on its own, and
exactly twice when the tray quit or window exit handler initiated it
(their `stop_app` call plus `main`'s `finally` `stop_app`). -/
theorem c9_restore_attempt_bounds (p : ShutdownPath) (a : AppSt)
    (h0 : a.restore_attempts = 0) :
    (shutdown p a).stop_event_set = true ∧
    1 ≤ (shutdown p a).restore_attempts ∧
    (shutdown p a).restore_attempts ≤ 2 ∧
    ((shutdown p a).restore_attempts = 1 ↔ p = ShutdownPath.mainLoopEnd) := by
  cases p <;> simp [shutdown, stop_app, h0]

/-- Witness for the amended C9: main-loop termination from a fresh state
restores exactly once. -/
theorem c9_restore_attempt_bounds_witness :
    (⟨false, 0⟩ : AppSt).restore_attempts = 0 ∧
    ((shutdown ShutdownPath.mainLoopEnd ⟨false, 0⟩).stop_event_set = true ∧
     1 ≤ (shutdown ShutdownPath.mainLoopEnd ⟨false, 0⟩).restore_attempts ∧
     (shutdown ShutdownPath.mainLoopEnd ⟨false, 0⟩).restore_attempts ≤ 2 ∧
     ((shutdown ShutdownPath.mainLoopEnd ⟨false, 0⟩).restore_attempts = 1 ↔
       ShutdownPath.mainLoopEnd = ShutdownPath.mainLoopEnd)) :=
  ⟨rfl, c9_restore_attempt_bounds ShutdownPath.mainLoopEnd ⟨false, 0⟩ rfl⟩

/-- Claim C10: the stored mode is written only through the three switch
operations: any operation either leaves the state exactly as it was, or
the state ends at `some m` where the clock-lock command for `m`'s
configured frequency succeeded — and `m` is the invoked operation's
target mode (`restore_gpu_defaults` never writes; the arbitration poll
writes only via the switch operations it invokes). -/
theorem c10_mode_single_writer (env : Env) (s : Settings) (st : St) (op : Op) :
    apply_op env s st op = st ∨
    (∃ m : Mode, (apply_op env s st op).current_mode = some m ∧
      ((runCmd env (Cmd.lgc (clock_for s m))).1).isSome = true ∧
      (match op with
       | Op.switchNormal => m = Mode.Normal
       | Op.switchBalanced => m = Mode.Balanced
       | Op.switchBoost _ => m = Mode.Boost
       | Op.restoreDefaults => False
       | Op.autoPoll => True)) := by
  cases op with
  | restoreDefaults => exact Or.inl rfl
  | switchNormal =>
    by_cases hr : ((runCmd env (Cmd.lgc s.battery_mhz)).1).isSome = true
    · exact Or.inr ⟨Mode.Normal,
        by simp [apply_op, set_mode_normal, set_gpu_clock, hr],
        by simpa [clock_for] using hr, rfl⟩
    · exact Or.inl (by simp [apply_op, set_mode_normal, set_gpu_clock, hr])
  | switchBalanced =>
    by_cases hr : ((runCmd env (Cmd.lgc s.stable_mhz)).1).isSome = true
    · exact Or.inr ⟨Mode.Balanced,
        by simp [apply_op, set_mode_balanced, set_gpu_clock, hr],
        by simpa [clock_for] using hr, rfl⟩
    · exact Or.inl (by simp [apply_op, set_mode_balanced, set_gpu_clock, hr])
  | switchBoost force =>
    by_cases hg : force = false ∧ env.ac = false
    · exact Or.inl (by simp [apply_op, set_mode_boost, hg])
    · cases ht : env.temp with
      | none =>
        by_cases hr : ((runCmd env (Cmd.lgc s.boost_mhz)).1).isSome = true
        · exact Or.inr ⟨Mode.Boost,
            by simp [apply_op, set_mode_boost, hg, ht, boost_apply, set_gpu_clock, hr],
            by simpa [clock_for] using hr, rfl⟩
        · exact Or.inl
            (by simp [apply_op, set_mode_boost, hg, ht, boost_apply, set_gpu_clock, hr])
      | some t =>
        by_cases hth : s.temp_threshold_boost ≤ t
        · exact Or.inl (by simp [apply_op, set_mode_boost, hg, ht, hth])
        · by_cases hr : ((runCmd env (Cmd.lgc s.boost_mhz)).1).isSome = true
          · exact Or.inr ⟨Mode.Boost,
              by simp [apply_op, set_mode_boost, hg, ht, hth, boost_apply, set_gpu_clock, hr],
              by simpa [clock_for] using hr, rfl⟩
          · exact Or.inl
              (by simp [apply_op, set_mode_boost, hg, ht, hth, boost_apply, set_gpu_clock, hr])
  | autoPoll =>
    have key : ∀ m : Mode, poll_selects env s st m →
        (auto_temp_poll env s st).1 = st ∨
        (∃ m2 : Mode, (auto_temp_poll env s st).1.current_mode = some m2 ∧
          ((runCmd env (Cmd.lgc (clock_for s m2))).1).isSome = true ∧ True) := by
      intro m hm
      by_cases hcur : st.current_mode = some m
      · left
        rw [hm.1 hcur]
      · rcases hm.2 hcur with ⟨-, h2⟩
        by_cases hr : ((runCmd env (Cmd.lgc (clock_for s m))).1).isSome = true
        · right
          refine ⟨m, ?_, hr, trivial⟩
          rw [h2]
          simp [hr]
        · left
          apply St.ext_mode
          rw [h2]
          simp [hr]
    by_cases hauto : s.auto_temp_mode = true
    · cases ht : env.temp with
      | none =>
        left
        show (auto_temp_poll env s st).1 = st
        rw [poll_skip_unreadable env s st ht]
      | some t =>
        rcases le_or_lt s.temp_threshold_force_normal t with hf | hf
        · exact key Mode.Normal (poll_selects_normal env s st t hauto ht hf)
        · rcases le_or_lt s.temp_threshold_balanced t with hb | hb
          · exact key Mode.Balanced (poll_selects_balanced_hot env s st t hauto ht hf hb)
          · by_cases hac : env.ac = true ∧ t < s.temp_threshold_boost
            · exact key Mode.Boost
                (poll_selects_boost env s st t hauto ht hf hb hac.1 hac.2)
            · exact key Mode.Balanced
                (poll_selects_balanced_cool env s st t hauto ht hf hb hac)
    · left
      show (auto_temp_poll env s st).1 = st
      unfold auto_temp_poll
      simp [hauto]
